import Mathlib

/-!
Shallow embedding of `generate_ec2_credentials.py`, a command-line script that
authenticates against an OpenStack Keystone identity service, lists or creates
EC2-style access/secret credential pairs, and prints them.

The embedding models Python values flowing through the script as a `Json`
inductive (Python `None`/`bool`/`int`/`str`/`list`/`dict`), each HTTP response
as a `CallResult` (either a transport-level error, modelling a raised
`requests` exception, or a response with status, the `X-Subject-Token` header,
an optional parsed JSON body — `none` models a body on which `response.json()`
raises — and the raw `response.text`), and the whole run of `main` as a pure
function from the operator-supplied password and an environment (the three
service responses plus the operator's answer to the reuse prompt) to a
`RunOut` record: the console lines printed, the interactive prompts shown, the
network calls issued, the authentication request body sent, and the outcome
(a `sys.exit` code or an unhandled Python exception escaping `main`).

`print(x)` is modelled as emitting the lines of `x` (a string containing a
newline yields several console lines, matching what appears on the console);
exception message texts that Python derives from the exception object are
modelled as fixed marker strings, since the script only ever interpolates them
into diagnostics and never inspects them.
-/

/-- Python values as they occur in this script: `None`, booleans, integers,
strings, lists and string-keyed dicts (the shapes produced by `response.json()`
and the literals in the source). -/
inductive Json where
  | null
  | bool (b : Bool)
  | num (n : Int)
  | str (s : String)
  | arr (elems : List Json)
  | obj (fields : List (String × Json))
deriving Repr

/-- Python truthiness (`if x:`) for the values above: `None`, `False`, `0`,
`""`, `[]` and the empty dict are falsy, everything else truthy. -/
def Json.pyTruthy : Json → Bool
  | .null => false
  | .bool b => b
  | .num n => n != 0
  | .str s => !s.isEmpty
  | .arr xs => !xs.isEmpty
  | .obj fs => !fs.isEmpty

mutual

/-- Python `repr` for the values above (`str()` falls back to this for
non-string values interpolated into f-strings). -/
def Json.pyRepr : Json → String
  | .null => "None"
  | .bool true => "True"
  | .bool false => "False"
  | .num n => toString n
  | .str s => "\x27" ++ s ++ "\x27"
  | .arr xs => "[" ++ String.intercalate ", " (pyReprList xs) ++ "]"
  | .obj fs => "\x7b" ++ String.intercalate ", " (pyReprFields fs) ++ "\x7d"

/-- `repr` of each element of a Python list. -/
def pyReprList : List Json → List String
  | [] => []
  | x :: xs => Json.pyRepr x :: pyReprList xs

/-- `repr` of each `key: value` entry of a Python dict. -/
def pyReprFields : List (String × Json) → List String
  | [] => []
  | (k, v) :: fs => ("\x27" ++ k ++ "\x27: " ++ Json.pyRepr v) :: pyReprFields fs

end

/-- Python `str(x)` as used by f-string interpolation: a string renders as
itself, every other value by its `repr`. -/
def Json.pyStr : Json → String
  | .str s => s
  | j => j.pyRepr

/-- Python `len(x)`: defined for strings, lists and dicts; `none` models the
`TypeError` raised on other values. -/
def Json.pyLen : Json → Option Nat
  | .str s => some s.length
  | .arr xs => some xs.length
  | .obj fs => some fs.length
  | _ => none

/-- Python iteration (`for c in x:`) over the sized values: a list yields its
elements, a string its one-character substrings, a dict its keys.  (In the
script iteration is only reached after `len` succeeded, so these are the only
cases.) -/
def Json.pyIter : Json → List Json
  | .arr xs => xs
  | .str s => s.toList.map fun c => .str (String.mk [c])
  | .obj fs => fs.map fun kv => .str kv.1
  | _ => []

/-- Python `x.get(k)` on a value expected to be a dict: `none` models the
`AttributeError` raised when `x` is not a dict; on a dict, an absent key
yields Python `None`. -/
def Json.pyGet : Json → String → Option Json
  | .obj fs, k => some ((fs.lookup k).getD .null)
  | _, _ => none

/-- Python `x[k]` subscripting with a string key: `none` models the exception
raised when `x` is not a dict (`TypeError`) or the key is absent (`KeyError`). -/
def Json.pyIndex : Json → String → Option Json
  | .obj fs, k => fs.lookup k
  | _, _ => none

/-- Python `x[0]`: first element of a list or first character of a non-empty
string; `none` models the exception raised otherwise (`IndexError` on an empty
list, `KeyError` on a dict, `TypeError` on the rest). -/
def Json.pySub0 : Json → Option Json
  | .arr (x :: _) => some x
  | .str s =>
      match s.toList with
      | c :: _ => some (.str (String.mk [c]))
      | [] => none
  | _ => none

/-- Truthiness of `headers.get('X-Subject-Token')`: Python `None` and the
empty string are falsy. -/
def optStrTruthy : Option String → Bool
  | none => false
  | some s => !s.isEmpty

/-- One HTTP exchange as observed by the script: either the `requests` call
raised (transport error carrying the exception text), or a response arrived
with a status code, the `X-Subject-Token` header (`none` when absent), the
parsed JSON body (`none` when `response.json()` would raise) and the raw
`response.text`. -/
inductive CallResult where
  | transportError (msg : String)
  | response (status : Nat) (subjectToken : Option String) (body : Option Json) (text : String)
deriving Repr

/-- The value `get_keystone_token` returns to `main`: the bare `None` of the
non-201 branch (source line 57), or the `(token, user_id)` pair — the
`except` branch returns the pair `(None, None)`, i.e. `pair none Json.null`. -/
inductive AuthReturn where
  | scalarNone
  | pair (token : Option String) (user_id : Json)
deriving Repr

/-- A network request issued by the script (method, endpoint and, for the
EC2-credential calls, the `X-Auth-Token` header and JSON body sent). -/
inductive SentCall where
  | postAuthTokens
  | getEc2Credentials (url : String) (xAuthToken : Option String)
  | postEc2Credentials (url : String) (xAuthToken : Option String) (body : Json)
deriving Repr

/-- How the process ends: `sys.exit(main())` with `main`'s return value, or an
unhandled Python exception escaping `main` (carrying its message). -/
inductive Outcome where
  | exit (code : Nat)
  | unhandled (exc : String)
deriving Repr, DecidableEq

/-- The observable result of one run: console lines printed, interactive
prompts shown (`input`), network calls issued, the body of the authentication
request (the only place the password is sent), and the outcome. -/
structure RunOut where
  lines : List String
  prompts : List String
  calls : List SentCall
  authRequestBody : Json
  outcome : Outcome

/-- The process exit status: `main`'s return value via `sys.exit`, and the
interpreter's exit status 1 when an unhandled exception terminates the
process. -/
def runExitCode (r : RunOut) : Nat :=
  match r.outcome with
  | .exit c => c
  | .unhandled _ => 1

/-- The environment of one run: the three service responses, in call order,
and the operator's answer to the reuse prompt (consumed only if that prompt
is shown). -/
structure Env where
  authResp : CallResult
  listResp : CallResult
  createResp : CallResult
  reuseAnswer : String

-- Configuration constants from the openrc file (source lines 16–22).
def OS_AUTH_URL : String := "https://api.pub1.infomaniak.cloud/identity/v3"
def OS_PROJECT_NAME : String := "PCP-7LNN6ZO"
def OS_PROJECT_DOMAIN_NAME : String := "default"
def OS_USERNAME : String := "PCU-7LNN6ZO"
def OS_USER_DOMAIN_NAME : String := "default"
def OS_PROJECT_ID : String := "b45e6f3c29a34aa6b99cea829122a734"
def OS_REGION_NAME : String := "dc3-a"

-- Marker strings for exception texts the script interpolates into
-- diagnostics (their exact wording is interpreter-defined and never
-- inspected by the script).
def jsonDecodeErrorMsg : String := "Expecting value: line 1 column 1 (char 0)"
def keyLookupErrorMsg : String := "KeyError on token response body"
def attrErrorMsg : String := "AttributeError: object has no attribute get"
def unpackTypeErrorMsg : String := "TypeError: cannot unpack non-iterable NoneType object"
def lenTypeErrorMsg : String := "TypeError: object has no len()"
def sub0TypeErrorMsg : String := "TypeError: object is not subscriptable"

/-- Splitting a character list at newlines, accumulating the current line in
reverse. -/
def textLinesAux : List Char → List Char → List String
  | [], acc => [String.mk acc.reverse]
  | c :: cs, acc =>
      if c = Char.ofNat 10 then String.mk acc.reverse :: textLinesAux cs []
      else textLinesAux cs (c :: acc)

/-- Python `str.lower()` (ASCII case folding, the only case relevant to the
script, which compares the answer against "y"). -/
def pyLower (s : String) : String := String.mk (s.toList.map Char.toLower)

/-- Python `str.strip()`: remove leading and trailing whitespace. -/
def pyStrip (s : String) : String :=
  String.mk (((s.toList.dropWhile Char.isWhitespace).reverse.dropWhile
    Char.isWhitespace).reverse)

/-- The console lines produced by `print(text)`: `text` split at newline
characters (an empty text prints one empty line). -/
def textLines (s : String) : List String :=
  textLinesAux s.toList []

/-- Boolean string-prefix test (used only to state properties about the
printed lines). -/
def strHasPrefix (pre s : String) : Bool :=
  s.toList.take pre.toList.length == pre.toList

/-- The `auth_data` request body built by `get_keystone_token` (source lines
26–45); the only value into which the operator-supplied password flows. -/
def auth_data (password : String) : Json :=
  .obj [("auth", .obj [
    ("identity", .obj [
      ("methods", .arr [.str "password"]),
      ("password", .obj [
        ("user", .obj [
          ("name", .str OS_USERNAME),
          ("domain", .obj [("name", .str OS_USER_DOMAIN_NAME)]),
          ("password", .str password)])])]),
    ("scope", .obj [
      ("project", .obj [
        ("id", .str OS_PROJECT_ID),
        ("domain", .obj [("name", .str OS_PROJECT_DOMAIN_NAME)])])])])]

/-- The lookup `token_data['token']['user']['id']` (source line 62); `none`
models the exception raised when a level is absent or not a dict. -/
def tokenUserId (token_data : Json) : Option Json :=
  (token_data.pyIndex "token").bind fun t =>
    (t.pyIndex "user").bind fun u => u.pyIndex "id"

/-- `get_keystone_token` (source lines 24–67), as a function of the service's
response to the `POST /auth/tokens` request: the value returned to `main`
paired with the console lines it prints.  The request body itself is
`auth_data password`; it is recorded in `RunOut.authRequestBody` by `mainRun`,
the password having no other influence on the function. -/
def get_keystone_token (resp : CallResult) : AuthReturn × List String :=
  match resp with
  | .transportError e =>
      (.pair none .null, ["Error during authentication: " ++ e])
  | .response status subjectToken body text =>
      if status ≠ 201 then
        (.scalarNone, ("Error authenticating: " ++ toString status) :: textLines text)
      else
        match body with
        | none => (.pair none .null, ["Error during authentication: " ++ jsonDecodeErrorMsg])
        | some token_data =>
            match tokenUserId token_data with
            | none => (.pair none .null, ["Error during authentication: " ++ keyLookupErrorMsg])
            | some user_id => (.pair subjectToken user_id, [])

/-- `list_ec2_credentials` (source lines 87–102), as a function of the
service's response to the listing request: the value returned to `main`
(`response.json().get('credentials', [])` on a 200, `[]` on every handled
error) paired with the console lines it prints.  The request URL and
`X-Auth-Token` header are recorded in the call trace by `mainRun`. -/
def list_ec2_credentials (resp : CallResult) : Json × List String :=
  match resp with
  | .transportError e =>
      (.arr [], ["Error listing credentials: " ++ e])
  | .response status _ body text =>
      if status = 200 then
        match body with
        | none => (.arr [], ["Error listing credentials: " ++ jsonDecodeErrorMsg])
        | some (.obj fs) => ((fs.lookup "credentials").getD (.arr []), [])
        | some _ => (.arr [], ["Error listing credentials: " ++ attrErrorMsg])
      else
        (.arr [], ("Error listing credentials: " ++ toString status) :: textLines text)

/-- `create_ec2_credentials` (source lines 104–127), as a function of the
service's response to the creation request: the value returned to `main`
(`response.json().get('credential')` on a 200/201, `None` on every handled
error) paired with the console lines it prints.  The request URL, header and
`ec2_data` body are recorded in the call trace by `mainRun`. -/
def create_ec2_credentials (resp : CallResult) : Json × List String :=
  match resp with
  | .transportError e =>
      (.null, ["Error creating credentials: " ++ e])
  | .response status _ body text =>
      if status = 200 ∨ status = 201 then
        match body with
        | none => (.null, ["Error creating credentials: " ++ jsonDecodeErrorMsg])
        | some (.obj fs) => ((fs.lookup "credential").getD .null, [])
        | some _ => (.null, ["Error creating credentials: " ++ attrErrorMsg])
      else
        (.null, ("Error creating EC2 credentials: " ++ toString status) :: textLines text)

/-- The `ec2_data` body of the creation request (source lines 106–108). -/
def ec2_data : Json := .obj [("tenant_id", .str OS_PROJECT_ID)]

/-- The separator line `"=" * 50`. -/
def sep50 : String := String.mk (List.replicate 50 (Char.ofNat 61))

/-- The reuse prompt shown by `input` (source line 161). -/
def createNewPrompt : String := "Create new credentials? (y/n): "

/-- The loop `for cred in existing: print(f"  - Access Key: ...")` (source
lines 158–159): the lines printed before any exception, and the exception (if
a `cred` is not a dict) that escapes `main`. -/
def printAccessLoop : List Json → List String × Option String
  | [] => ([], none)
  | cred :: creds =>
      match cred.pyGet "access" with
      | none => ([], some attrErrorMsg)
      | some v =>
          let (ls, e) := printAccessLoop creds
          (("  - Access Key: " ++ v.pyStr) :: ls, e)

/-- The creation tail of `main` (source lines 171–188), entered either when no
existing credentials were found or when the operator answered affirmatively:
prints "Creating new EC2 credentials...", issues the creation request, and
either prints the new pair and returns 0 or prints the failure diagnostic and
returns 1.  `linesAcc`, `callsAcc`, `promptsAcc` are the observables
accumulated so far. -/
def createStep (token : Option String) (user_id : Json) (resp : CallResult)
    (linesAcc : List String) (callsAcc : List SentCall) (promptsAcc : List String) : RunOut :=
  let url := OS_AUTH_URL ++ "/users/" ++ user_id.pyStr ++ "/credentials/OS-EC2"
  let lines0 := linesAcc ++ ["Creating new EC2 credentials..."]
  let (credential, cLines) := create_ec2_credentials resp
  let lines1 := lines0 ++ cLines
  let calls1 := callsAcc ++ [SentCall.postEc2Credentials url token ec2_data]
  if credential.pyTruthy then
    let lines2 := lines1 ++ ["", "✓ EC2 credentials created successfully!", sep50, "",
      "Add these to your AWS CLI credentials file:"]
    match credential.pyGet "access" with
    | none => ⟨lines2, promptsAcc, calls1, .null, .unhandled attrErrorMsg⟩
    | some a =>
        let lines3 := lines2 ++ ["", "Access Key ID: " ++ a.pyStr]
        match credential.pyGet "secret" with
        | none => ⟨lines3, promptsAcc, calls1, .null, .unhandled attrErrorMsg⟩
        | some s =>
            ⟨lines3 ++ ["Secret Access Key: " ++ s.pyStr, "",
              "These can be used as S3 credentials for Infomaniak Object Storage.", "",
              "To update ~/.aws/credentials, run:",
              "  aws configure set aws_access_key_id " ++ a.pyStr ++ " --profile infomaniak",
              "  aws configure set aws_secret_access_key " ++ s.pyStr ++ " --profile infomaniak"],
             promptsAcc, calls1, .null, .exit 0⟩
  else
    ⟨lines1 ++ ["Failed to create EC2 credentials."], promptsAcc, calls1, .null, .exit 1⟩

/-- The banner `main` prints before authenticating (source lines 130–135 and
141): title, separator, project, region, username, the blank line of
`print()`, and the two lines of `print("\nAuthenticating...")`. -/
def headerLines : List String :=
  ["Infomaniak OpenStack EC2 Credentials Generator", sep50,
   "Project: " ++ OS_PROJECT_NAME,
   "Region: " ++ OS_REGION_NAME,
   "Username: " ++ OS_USERNAME,
   "", "", "Authenticating..."]

/-- `main` (source lines 129–188), as a function of the environment alone; the
password's sole use — the authentication request body — is filled in by
`mainRun`, so its `authRequestBody` field here is a placeholder.  The getpass
prompt writes to the controlling tty, not stdout, and is not a console line. -/
def mainBody (env : Env) : RunOut :=
  let ga := get_keystone_token env.authResp
  let lines0 := headerLines ++ ga.2
  let calls0 := [SentCall.postAuthTokens]
  match ga.1 with
  | .scalarNone =>
      -- `token, user_id = get_keystone_token(password)` unpacking the bare
      -- `None` of the non-201 branch raises TypeError in `main`.
      ⟨lines0, [], calls0, .null, .unhandled unpackTypeErrorMsg⟩
  | .pair token user_id =>
      if !optStrTruthy token || !user_id.pyTruthy then
        ⟨lines0 ++ ["Failed to authenticate. Please check your password."],
         [], calls0, .null, .exit 1⟩
      else
        let lines1 := lines0 ++ ["✓ Authentication successful!",
          "User ID: " ++ user_id.pyStr, "", "Checking existing EC2 credentials..."]
        let url := OS_AUTH_URL ++ "/users/" ++ user_id.pyStr ++ "/credentials/OS-EC2"
        let le := list_ec2_credentials env.listResp
        let existing := le.1
        let lines2 := lines1 ++ le.2
        let calls1 := calls0 ++ [SentCall.getEc2Credentials url token]
        if existing.pyTruthy then
          match existing.pyLen with
          | none => ⟨lines2, [], calls1, .null, .unhandled lenTypeErrorMsg⟩
          | some n =>
              let lines3 := lines2 ++ ["Found " ++ toString n ++ " existing EC2 credential(s):"]
              let pl := printAccessLoop existing.pyIter
              let lines4 := lines3 ++ pl.1
              match pl.2 with
              | some e => ⟨lines4, [], calls1, .null, .unhandled e⟩
              | none =>
                  let prompts := [createNewPrompt]
                  let lines5 := lines4 ++ [""]
                  let create_new := pyStrip (pyLower env.reuseAnswer)
                  if create_new ≠ "y" then
                    let lines6 := lines5 ++ ["", "Using existing credentials:"]
                    if existing.pyTruthy then
                      match existing.pySub0 with
                      | none => ⟨lines6, prompts, calls1, .null, .unhandled sub0TypeErrorMsg⟩
                      | some cred =>
                          match cred.pyGet "access" with
                          | none => ⟨lines6, prompts, calls1, .null, .unhandled attrErrorMsg⟩
                          | some a =>
                              let lines7 := lines6 ++ ["Access Key ID: " ++ a.pyStr]
                              match cred.pyGet "secret" with
                              | none => ⟨lines7, prompts, calls1, .null, .unhandled attrErrorMsg⟩
                              | some s =>
                                  ⟨lines7 ++ ["Secret Access Key: " ++ s.pyStr, "",
                                    "Add these to ~/.aws/credentials under [infomaniak] profile"],
                                   prompts, calls1, .null, .exit 0⟩
                    else ⟨lines6, prompts, calls1, .null, .exit 0⟩
                  else
                    createStep token user_id env.createResp lines5 calls1 prompts
        else
          createStep token user_id env.createResp lines2 calls1 []

/-- One full run of the script: `mainBody` on the environment, with the
password recorded in the authentication request body — its only use in the
source (lines 138 and 142, flowing into `auth_data` at line 34). -/
def mainRun (password : String) (env : Env) : RunOut :=
  { mainBody env with authRequestBody := auth_data password }

/-! ### Specification-side predicates

These formalise the spec's wording, to be compared against the functions
embedded from the source. -/

/-- The spec's "returns a non-empty token and a subject id": the value handed
back to `main` is a `(token, user_id)` pair whose token is a non-empty
string (the subject id being whatever the body's `token.user.id` held). -/
def authReturnSuccess : AuthReturn → Prop
  | .scalarNone => False
  | .pair none _ => False
  | .pair (some t) _ => t ≠ ""

/-- The claim's stated success condition for `Authenticate`: the service
responds 201 with the `X-Subject-Token` header present and a body containing
`token.user.id`. -/
def specAuthPresentCond : CallResult → Prop
  | .transportError _ => False
  | .response status subjectToken body _ =>
      status = 201 ∧ subjectToken ≠ none ∧ ∃ b, body = some b ∧ tokenUserId b ≠ none

/-- The amended success condition: as `specAuthPresentCond`, but the
`X-Subject-Token` header must carry a non-empty value (the code tests the
header's truthiness, so a present-but-empty header is treated as failure). -/
def specAuthNonEmptyCond : CallResult → Prop
  | .transportError _ => False
  | .response status subjectToken body _ =>
      status = 201 ∧ (∃ t, subjectToken = some t ∧ t ≠ "") ∧
        ∃ b, body = some b ∧ tokenUserId b ≠ none

/-- The error cases quantified over by the listing claim: a transport error,
a non-200 status, or a malformed body (one that is not a JSON object carrying
a `credentials` list). -/
def specListErrorCase : CallResult → Prop
  | .transportError _ => True
  | .response status _ body _ =>
      status ≠ 200 ∨ ¬ ∃ fs xs, body = some (.obj fs) ∧ fs.lookup "credentials" = some (.arr xs)

/-- The amended listing error cases: a transport error, a non-200 status, an
unparsable or non-object body, or an object body lacking the `credentials`
key.  (Excluded relative to `specListErrorCase`: a 200 object body whose
`credentials` key holds a non-list value — the code returns that value
as-is.) -/
def amendedListErrorCase : CallResult → Prop
  | .transportError _ => True
  | .response status _ body _ =>
      status ≠ 200 ∨
      match body with
      | none => True
      | some (.obj fs) => fs.lookup "credentials" = none
      | some _ => True

/-- The creation-failure cases of the claim: a transport error, or a status
other than 200 and 201. -/
def createErrorCase : CallResult → Prop
  | .transportError _ => True
  | .response status _ _ _ => status ≠ 200 ∧ status ≠ 201

/-- Whether `main`'s authentication check passes: `get_keystone_token`
returned a pair with a truthy token and a truthy user id (the test at source
line 144). -/
def authPassesB (resp : CallResult) : Bool :=
  match (get_keystone_token resp).1 with
  | .scalarNone => false
  | .pair token user_id => optStrTruthy token && user_id.pyTruthy

/-- A credential record as in the data model: `{access, secret}`. -/
def credRecord (a s : String) : Json :=
  .obj [("access", .str a), ("secret", .str s)]

/-! ### Concrete scenario inputs -/

/-- The body `{"token":{"user":{"id":"u1"}}}` of the spec's Scenario A. -/
def bodyU1 : Json := .obj [("token", .obj [("user", .obj [("id", .str "u1")])])]

/-- A successful authentication response: 201, non-empty subject token,
Scenario A body. -/
def authOkResp : CallResult := .response 201 (some "TOK") (some bodyU1) ""

/-- A successful listing response with no existing credentials. -/
def emptyListResp : CallResult :=
  .response 200 none (some (.obj [("credentials", .arr [])])) ""

/-- Environment for the failing input of the termination claim: the
authentication call returns 401. -/
def c1Env : Env := ⟨.response 401 none none "unauthorized", emptyListResp, emptyListResp, ""⟩

/-- Environment witnessing the auth-failure halt: 401 on authentication. -/
def c2WEnv : Env := ⟨.response 401 none none "denied", emptyListResp, emptyListResp, ""⟩

/-- Counterexample response for the authenticate claim: 201 with the
`X-Subject-Token` header present but carrying the empty string. -/
def c3CeResp : CallResult := .response 201 (some "") (some bodyU1) ""

/-- Environment witnessing auth-failure handling: transport error on the
authentication call. -/
def c3WEnv : Env := ⟨.transportError "connection refused", emptyListResp, emptyListResp, ""⟩

/-- Counterexample response for the listing claim: a 200 whose `credentials`
key holds the non-list value `5`. -/
def c4CeResp : CallResult := .response 200 none (some (.obj [("credentials", .num 5)])) ""

/-- Environment running the listing counterexample after a successful
authentication. -/
def c4CeEnv : Env := ⟨authOkResp, c4CeResp, emptyListResp, ""⟩

/-- Environment witnessing the amended listing claim: listing returns 404. -/
def c4WEnv : Env :=
  ⟨authOkResp, .response 404 none none "not found",
   .response 201 none (some (.obj [("credential", credRecord "NA" "NS")])) "", ""⟩

/-- Environment witnessing the decision-point claim: one existing record,
operator answers "n". -/
def c5WEnv : Env :=
  ⟨authOkResp,
   .response 200 none (some (.obj [("credentials", .arr [credRecord "AK1" "SK1"])])) "",
   .response 201 none (some (.obj [("credential", credRecord "NA" "NS")])) "", "n"⟩

/-- Environment of the spec's Scenario B: listing returns
`{"credentials":[{"access":"AK1","secret":"SK1"}]}`, operator answers "n". -/
def c6Env : Env :=
  ⟨authOkResp,
   .response 200 none (some (.obj [("credentials", .arr [credRecord "AK1" "SK1"])])) "",
   .response 200 none none "", "n"⟩

/-- Environment witnessing the creation-failure claim: creation returns 403. -/
def c8WEnv : Env := ⟨authOkResp, emptyListResp, .response 403 none none "forbidden", ""⟩

/-- Environment witnessing the missing-key creation claim: creation returns
201 with a body lacking the `credential` key. -/
def c10WEnv : Env :=
  ⟨authOkResp, emptyListResp, .response 201 none (some (.obj [("links", .null)])) "", ""⟩

/-! ### Helper lemmas -/

theorem mainRun_lines (p : String) (env : Env) :
    (mainRun p env).lines = (mainBody env).lines := rfl

theorem mainRun_prompts (p : String) (env : Env) :
    (mainRun p env).prompts = (mainBody env).prompts := rfl

theorem mainRun_calls (p : String) (env : Env) :
    (mainRun p env).calls = (mainBody env).calls := rfl

theorem mainRun_outcome (p : String) (env : Env) :
    (mainRun p env).outcome = (mainBody env).outcome := rfl

theorem credRecord_get_access (a s : String) :
    (credRecord a s).pyGet "access" = some (.str a) := rfl

theorem credRecord_get_secret (a s : String) :
    (credRecord a s).pyGet "secret" = some (.str s) := rfl

theorem createStep_mem_creating (token : Option String) (user_id : Json) (resp : CallResult)
    (la : List String) (ca : List SentCall) (pa : List String) :
    "Creating new EC2 credentials..." ∈ (createStep token user_id resp la ca pa).lines := by
  unfold createStep
  rcases hc : create_ec2_credentials resp with ⟨cv, cl⟩
  by_cases h : cv.pyTruthy <;> simp [h] <;> rcases ha : cv.pyGet "access" with _ | a <;>
    simp [ha] <;> rcases hs : cv.pyGet "secret" with _ | s <;> simp [hs]

theorem createStep_lines_mono (token : Option String) (user_id : Json) (resp : CallResult)
    (la : List String) (ca : List SentCall) (pa : List String) :
    ∀ x ∈ (create_ec2_credentials resp).2, x ∈ (createStep token user_id resp la ca pa).lines := by
  intro x hx
  unfold createStep
  rcases hc : create_ec2_credentials resp with ⟨cv, cl⟩
  rw [hc] at hx
  simp only at hx
  by_cases h : cv.pyTruthy <;> simp [h, hx] <;> rcases ha : cv.pyGet "access" with _ | a <;>
    simp [ha, hx] <;> rcases hs : cv.pyGet "secret" with _ | s <;> simp [hs, hx]

theorem createStep_fail (token : Option String) (user_id : Json) (resp : CallResult)
    (la : List String) (ca : List SentCall) (pa : List String)
    (h : (create_ec2_credentials resp).1 = .null) :
    (createStep token user_id resp la ca pa).outcome = .exit 1 ∧
    "Failed to create EC2 credentials." ∈ (createStep token user_id resp la ca pa).lines ∧
    (createStep token user_id resp la ca pa).prompts = pa := by
  unfold createStep
  rcases hc : create_ec2_credentials resp with ⟨cv, cl⟩
  rw [hc] at h
  simp only at h
  subst h
  simp [Json.pyTruthy]

theorem create_error_null (resp : CallResult) (h : createErrorCase resp) :
    (create_ec2_credentials resp).1 = .null := by
  cases resp with
  | transportError e => rfl
  | response st tok body text =>
      simp only [createErrorCase] at h
      simp [create_ec2_credentials, h.1, h.2]

theorem printAccessLoop_records (rs : List (String × String)) :
    printAccessLoop (rs.map fun r => credRecord r.1 r.2) =
      (rs.map fun r => "  - Access Key: " ++ r.1, none) := by
  induction rs with
  | nil => rfl
  | cons r rs ih =>
      simp only [List.map_cons, printAccessLoop, credRecord_get_access, ih, Json.pyStr]

theorem mainBody_scalarNone (env : Env)
    (h : (get_keystone_token env.authResp).1 = .scalarNone) :
    (mainBody env).outcome = .unhandled unpackTypeErrorMsg ∧
    (mainBody env).calls = [SentCall.postAuthTokens] ∧
    (mainBody env).lines = headerLines ++ (get_keystone_token env.authResp).2 := by
  unfold mainBody
  simp [h]

theorem mainBody_authFail (env : Env) (t : Option String) (u : Json)
    (hga : (get_keystone_token env.authResp).1 = .pair t u)
    (hf : (!optStrTruthy t || !u.pyTruthy) = true) :
    (mainBody env).outcome = .exit 1 ∧
    (mainBody env).calls = [SentCall.postAuthTokens] ∧
    (mainBody env).lines = headerLines ++ (get_keystone_token env.authResp).2 ++
      ["Failed to authenticate. Please check your password."] := by
  unfold mainBody
  simp [hga, hf]

theorem mainBody_noExisting (env : Env) (t : Option String) (u : Json)
    (hga : (get_keystone_token env.authResp).1 = .pair t u)
    (ht : optStrTruthy t = true) (hu : u.pyTruthy = true)
    (hlist : (list_ec2_credentials env.listResp).1.pyTruthy = false) :
    mainBody env = createStep t u env.createResp
      (headerLines ++ (get_keystone_token env.authResp).2 ++
        ["✓ Authentication successful!", "User ID: " ++ u.pyStr, "",
         "Checking existing EC2 credentials..."] ++ (list_ec2_credentials env.listResp).2)
      [SentCall.postAuthTokens,
       SentCall.getEc2Credentials (OS_AUTH_URL ++ "/users/" ++ u.pyStr ++ "/credentials/OS-EC2") t]
      [] := by
  unfold mainBody
  simp [hga, ht, hu, hlist, List.append_assoc]

/-! ### Claim theorems -/

/-- Claim C9: for every run, the operator-supplied secret is sent only inside
the authentication request body and never influences the console output: two
runs differing only in the secret produce identical console output, prompts,
network calls and outcome whenever the service responses and other operator
inputs are identical. -/
theorem secret_noninterference (p₁ p₂ : String) (env : Env) :
    (mainRun p₁ env).lines = (mainRun p₂ env).lines ∧
    (mainRun p₁ env).prompts = (mainRun p₂ env).prompts ∧
    (mainRun p₁ env).calls = (mainRun p₂ env).calls ∧
    (mainRun p₁ env).outcome = (mainRun p₂ env).outcome ∧
    (mainRun p₁ env).authRequestBody = auth_data p₁ :=
  ⟨rfl, rfl, rfl, rfl, rfl⟩

/-- Claim C1 (failing input): the claim that every run terminates in Done
(exit 0) or Fail (exit 1) with no unhandled exception is violated — when the
authentication call returns a non-201 status such as 401, `get_keystone_token`
returns a bare `None` (source line 57) which `main` unpacks into two names
(source line 142), raising an unhandled `TypeError`; the interpreter then
exits with status 1 after printing a traceback. -/
theorem run_nonSuccessAuth_raises_typeError :
    (mainRun "hunter2" c1Env).outcome = .unhandled unpackTypeErrorMsg ∧
    runExitCode (mainRun "hunter2" c1Env) = 1 ∧
    "Error authenticating: 401" ∈ (mainRun "hunter2" c1Env).lines := by
  refine ⟨rfl, rfl, ?_⟩
  decide

/-- Claim C2: when the authentication call returns a non-success status, the
run reports the authentication failure, halts with exit status 1, and issues
no further network calls. -/
theorem authFailure_halts_before_further_calls (p : String) (st : Nat)
    (stok : Option String) (body : Option Json) (text : String) (env : Env)
    (hresp : env.authResp = .response st stok body text) (hst : st ≠ 201) :
    ("Error authenticating: " ++ toString st) ∈ (mainRun p env).lines ∧
    runExitCode (mainRun p env) = 1 ∧
    (mainRun p env).calls = [SentCall.postAuthTokens] := by
  have hga : (get_keystone_token env.authResp).1 = .scalarNone := by
    rw [hresp]; simp [get_keystone_token, hst]
  obtain ⟨ho, hc, hl⟩ := mainBody_scalarNone env hga
  have ho' : (mainRun p env).outcome = .unhandled unpackTypeErrorMsg :=
    (mainRun_outcome p env).trans ho
  refine ⟨?_, ?_, ?_⟩
  · rw [mainRun_lines, hl, hresp]
    simp [get_keystone_token, hst]
  · simp [runExitCode, ho']
  · rw [mainRun_calls, hc]

/-- Witness for C2 at the concrete input of Scenario D: status 401. -/
theorem authFailure_halts_before_further_calls_witness :
    ("Error authenticating: " ++ toString 401) ∈ (mainRun "pw" c2WEnv).lines ∧
    runExitCode (mainRun "pw" c2WEnv) = 1 ∧
    (mainRun "pw" c2WEnv).calls = [SentCall.postAuthTokens] :=
  authFailure_halts_before_further_calls "pw" 401 none none "denied" c2WEnv rfl (by decide)

/-- Claim C6 (Scenario B): listing returns the single record
`{"access":"AK1","secret":"SK1"}` and the operator answers "n"; the printed
output contains exactly the lines `Access Key ID: AK1` and
`Secret Access Key: SK1` (each once, and no other access-key-id or
secret-access-key line), and the process exits with code 0. -/
theorem scenarioB_reuse_prints_first_record :
    (mainRun "pw" c6Env).outcome = .exit 0 ∧
    ((mainRun "pw" c6Env).lines.count "Access Key ID: AK1") = 1 ∧
    ((mainRun "pw" c6Env).lines.count "Secret Access Key: SK1") = 1 ∧
    ((mainRun "pw" c6Env).lines.filter (fun l => strHasPrefix "Access Key" l)) =
      ["Access Key ID: AK1"] ∧
    ((mainRun "pw" c6Env).lines.filter (fun l => strHasPrefix "Secret Access Key" l)) =
      ["Secret Access Key: SK1"] := by
  refine ⟨?_, ?_, ?_, ?_, ?_⟩ <;> decide

theorem createStep_prompts (token : Option String) (user_id : Json) (resp : CallResult)
    (la : List String) (ca : List SentCall) (pa : List String) :
    (createStep token user_id resp la ca pa).prompts = pa := by
  unfold createStep
  rcases hc : create_ec2_credentials resp with ⟨cv, cl⟩
  by_cases h : cv.pyTruthy <;> simp [h] <;> rcases ha : cv.pyGet "access" with _ | a <;>
    simp [ha] <;> rcases hs : cv.pyGet "secret" with _ | s <;> simp [hs]

theorem authPasses_elim (resp : CallResult) (h : authPassesB resp = true) :
    ∃ t u, (get_keystone_token resp).1 = .pair t u ∧
      optStrTruthy t = true ∧ u.pyTruthy = true := by
  unfold authPassesB at h
  rcases hg : (get_keystone_token resp).1 with _ | ⟨t, u⟩
  · rw [hg] at h; simp at h
  · rw [hg] at h
    simp only [Bool.and_eq_true] at h
    exact ⟨t, u, rfl, h.1, h.2⟩

/-- Claim C7: every `access`/`secret` field value of a credential record
returned by a successful creation call is passed through to the console
output unmodified — the printed lines are the literal concatenation of the
fixed label and the untouched field value, with no transformation or
truncation, and the run then returns 0. -/
theorem createCredential_passthrough_unmodified (a s : String) (token ctok : Option String)
    (user_id : Json) (st : Nat) (bfs cfs : List (String × Json)) (text : String)
    (la : List String) (ca : List SentCall) (pa : List String)
    (hst : st = 200 ∨ st = 201)
    (hb : bfs.lookup "credential" = some (.obj cfs))
    (ha : cfs.lookup "access" = some (.str a))
    (hs : cfs.lookup "secret" = some (.str s)) :
    ("Access Key ID: " ++ a) ∈
      (createStep token user_id (.response st ctok (some (.obj bfs)) text) la ca pa).lines ∧
    ("Secret Access Key: " ++ s) ∈
      (createStep token user_id (.response st ctok (some (.obj bfs)) text) la ca pa).lines ∧
    ("  aws configure set aws_access_key_id " ++ a ++ " --profile infomaniak") ∈
      (createStep token user_id (.response st ctok (some (.obj bfs)) text) la ca pa).lines ∧
    ("  aws configure set aws_secret_access_key " ++ s ++ " --profile infomaniak") ∈
      (createStep token user_id (.response st ctok (some (.obj bfs)) text) la ca pa).lines ∧
    (createStep token user_id (.response st ctok (some (.obj bfs)) text) la ca pa).outcome =
      .exit 0 := by
  have hcred : (create_ec2_credentials (.response st ctok (some (.obj bfs)) text)).1 =
      .obj cfs := by
    rcases hst with h | h <;> subst h <;> simp [create_ec2_credentials, hb]
  have hne : cfs ≠ [] := by
    intro h; subst h; simp at ha
  unfold createStep
  rcases hc : create_ec2_credentials (.response st ctok (some (.obj bfs)) text) with ⟨cv, cl⟩
  rw [hc] at hcred
  simp only at hcred
  subst hcred
  have htr : (Json.obj cfs).pyTruthy = true := by simp [Json.pyTruthy, hne]
  have hga : (Json.obj cfs).pyGet "access" = some (.str a) := by simp [Json.pyGet, ha]
  have hgs : (Json.obj cfs).pyGet "secret" = some (.str s) := by simp [Json.pyGet, hs]
  simp [htr, hga, hgs, Json.pyStr]

/-- Witness for C7: a concrete successful creation response. -/
theorem createCredential_passthrough_unmodified_witness :
    ("Access Key ID: " ++ "AKX") ∈
      (createStep (some "TOK") (.str "u1")
        (.response 201 none (some (.obj [("credential", credRecord "AKX" "SKX")])) "")
        [] [] []).lines ∧
    ("Secret Access Key: " ++ "SKX") ∈
      (createStep (some "TOK") (.str "u1")
        (.response 201 none (some (.obj [("credential", credRecord "AKX" "SKX")])) "")
        [] [] []).lines ∧
    ("  aws configure set aws_access_key_id " ++ "AKX" ++ " --profile infomaniak") ∈
      (createStep (some "TOK") (.str "u1")
        (.response 201 none (some (.obj [("credential", credRecord "AKX" "SKX")])) "")
        [] [] []).lines ∧
    ("  aws configure set aws_secret_access_key " ++ "SKX" ++ " --profile infomaniak") ∈
      (createStep (some "TOK") (.str "u1")
        (.response 201 none (some (.obj [("credential", credRecord "AKX" "SKX")])) "")
        [] [] []).lines ∧
    (createStep (some "TOK") (.str "u1")
        (.response 201 none (some (.obj [("credential", credRecord "AKX" "SKX")])) "")
        [] [] []).outcome = .exit 0 :=
  createCredential_passthrough_unmodified "AKX" "SKX" (some "TOK") none (.str "u1") 201
    [("credential", credRecord "AKX" "SKX")] [("access", .str "AKX"), ("secret", .str "SKX")]
    "" [] [] [] (Or.inr rfl) rfl rfl rfl

/-- Claim C8: when the creation call fails with a non-200/201 status or a
transport error, the failure is reported to the console and the run exits
with code 1. -/
theorem createFailure_reported_and_exit1 (p : String) (env : Env)
    (hauth : authPassesB env.authResp = true)
    (hlist : (list_ec2_credentials env.listResp).1.pyTruthy = false)
    (herr : createErrorCase env.createResp) :
    runExitCode (mainRun p env) = 1 ∧
    "Failed to create EC2 credentials." ∈ (mainRun p env).lines ∧
    (∀ e, env.createResp = .transportError e →
      ("Error creating credentials: " ++ e) ∈ (mainRun p env).lines) ∧
    (∀ st stok b tx, env.createResp = .response st stok b tx →
      ("Error creating EC2 credentials: " ++ toString st) ∈ (mainRun p env).lines) := by
  obtain ⟨t, u, hga, ht, hu⟩ := authPasses_elim _ hauth
  have hmb := mainBody_noExisting env t u hga ht hu hlist
  have hnull := create_error_null env.createResp herr
  refine ⟨?_, ?_, ?_, ?_⟩
  · have ho : (mainRun p env).outcome = Outcome.exit 1 := by
      rw [mainRun_outcome, hmb]
      exact (createStep_fail _ _ _ _ _ _ hnull).1
    simp [runExitCode, ho]
  · rw [mainRun_lines, hmb]
    exact (createStep_fail _ _ _ _ _ _ hnull).2.1
  · intro e he
    rw [mainRun_lines, hmb]
    apply createStep_lines_mono
    rw [he]
    simp [create_ec2_credentials]
  · intro st stok b tx he
    rw [he] at herr
    simp only [createErrorCase] at herr
    rw [mainRun_lines, hmb]
    apply createStep_lines_mono
    rw [he]
    simp [create_ec2_credentials, herr.1, herr.2]

/-- Witness for C8: creation returns 403 after a clean empty listing. -/
theorem createFailure_reported_and_exit1_witness :
    runExitCode (mainRun "pw" c8WEnv) = 1 ∧
    "Failed to create EC2 credentials." ∈ (mainRun "pw" c8WEnv).lines ∧
    (∀ e, c8WEnv.createResp = .transportError e →
      ("Error creating credentials: " ++ e) ∈ (mainRun "pw" c8WEnv).lines) ∧
    (∀ st stok b tx, c8WEnv.createResp = .response st stok b tx →
      ("Error creating EC2 credentials: " ++ toString st) ∈ (mainRun "pw" c8WEnv).lines) :=
  createFailure_reported_and_exit1 "pw" c8WEnv (by decide) (by decide)
    (by exact ⟨by decide, by decide⟩)

/-- Claim C10: when the creation call returns a success status (200 or 201)
but the body lacks the `credential` key, `create_ec2_credentials` returns the
`None` sentinel and the run prints the creation-failure diagnostic and exits
with code 1, exactly as for a non-success status. -/
theorem createSuccess_missingKey_fails (p : String) (st : Nat) (ctok : Option String)
    (cfs : List (String × Json)) (tx : String) (env : Env)
    (hauth : authPassesB env.authResp = true)
    (hlist : (list_ec2_credentials env.listResp).1.pyTruthy = false)
    (hcr : env.createResp = .response st ctok (some (.obj cfs)) tx)
    (hst : st = 200 ∨ st = 201)
    (hk : cfs.lookup "credential" = none) :
    (create_ec2_credentials env.createResp).1 = .null ∧
    runExitCode (mainRun p env) = 1 ∧
    "Failed to create EC2 credentials." ∈ (mainRun p env).lines := by
  have hnull : (create_ec2_credentials env.createResp).1 = .null := by
    rw [hcr]
    rcases hst with h | h <;> subst h <;> simp [create_ec2_credentials, hk]
  obtain ⟨t, u, hga, ht, hu⟩ := authPasses_elim _ hauth
  have hmb := mainBody_noExisting env t u hga ht hu hlist
  refine ⟨hnull, ?_, ?_⟩
  · have ho : (mainRun p env).outcome = Outcome.exit 1 := by
      rw [mainRun_outcome, hmb]
      exact (createStep_fail _ _ _ _ _ _ hnull).1
    simp [runExitCode, ho]
  · rw [mainRun_lines, hmb]
    exact (createStep_fail _ _ _ _ _ _ hnull).2.1

/-- Witness for C10: creation returns 201 with body lacking `credential`. -/
theorem createSuccess_missingKey_fails_witness :
    (create_ec2_credentials c10WEnv.createResp).1 = .null ∧
    runExitCode (mainRun "pw" c10WEnv) = 1 ∧
    "Failed to create EC2 credentials." ∈ (mainRun "pw" c10WEnv).lines :=
  createSuccess_missingKey_fails "pw" 201 none [("links", .null)] "" c10WEnv
    (by decide) (by decide) rfl (Or.inr rfl) rfl

/-- Counterexample to claim C4 as stated: the 200 response whose
`credentials` key holds the non-list value `5` is one of the claim's
"malformed body" error cases, yet `list_ec2_credentials` returns that value
as-is rather than an empty sequence — and the run then crashes at
`len(existing)` instead of proceeding to offer creation. -/
theorem listCredentials_nonListValue_counterexample :
    specListErrorCase c4CeResp ∧
    (list_ec2_credentials c4CeResp).1 ≠ .arr [] ∧
    (mainRun "pw" c4CeEnv).outcome = .unhandled lenTypeErrorMsg := by
  refine ⟨Or.inr ?_, ?_, rfl⟩
  · rintro ⟨fs, xs, hb, hl⟩
    simp only [c4CeResp, Option.some.injEq, Json.obj.injEq] at hb
    rw [← hb] at hl
    simp [List.lookup] at hl
  · intro h
    simp [list_ec2_credentials, c4CeResp] at h

/-- Claim C4 (amended): for every transport error, non-200 status, unparsable
or non-object body, or object body lacking the `credentials` key,
`list_ec2_credentials` returns the empty list, and the run (after a
successful authentication) proceeds to offer creation rather than
terminating; a 200 object body whose `credentials` key does hold a value —
list or not — has that stored value returned as-is, not replaced by an empty
sequence. -/
theorem listCredentials_errors_yield_empty (p : String) (env : Env) (resp : CallResult)
    (hresp : env.listResp = resp) (herr : amendedListErrorCase resp)
    (hauth : authPassesB env.authResp = true) :
    (list_ec2_credentials resp).1 = .arr [] ∧
    "Creating new EC2 credentials..." ∈ (mainRun p env).lines ∧
    (∀ (stok2 : Option String) (fs2 : List (String × Json)) (tx2 : String) (v : Json),
      fs2.lookup "credentials" = some v →
      (list_ec2_credentials (.response 200 stok2 (some (.obj fs2)) tx2)).1 = v) := by
  have hempty : (list_ec2_credentials resp).1 = .arr [] := by
    cases resp with
    | transportError e => rfl
    | response st stok body tx =>
        by_cases h200 : st = 200
        · subst h200
          cases body with
          | none => rfl
          | some j =>
              cases j with
              | obj fs =>
                  simp only [amendedListErrorCase] at herr
                  rcases herr with h | h
                  · exact absurd rfl h
                  · simp [list_ec2_credentials, h]
              | null => rfl
              | bool b => rfl
              | num n => rfl
              | str s => rfl
              | arr xs => rfl
        · simp [list_ec2_credentials, h200]
  refine ⟨hempty, ?_, ?_⟩
  · obtain ⟨t, u, hga, ht, hu⟩ := authPasses_elim _ hauth
    have hlist : (list_ec2_credentials env.listResp).1.pyTruthy = false := by
      rw [hresp, hempty]; rfl
    have hmb := mainBody_noExisting env t u hga ht hu hlist
    rw [mainRun_lines, hmb]
    exact createStep_mem_creating _ _ _ _ _ _
  · intro stok2 fs2 tx2 v hv
    simp [list_ec2_credentials, hv]

/-- Witness for the amended C4: listing returns 404 after a successful
authentication and the run proceeds to creation; a 200 body storing the
non-list value `5` under `credentials` has that value returned as-is. -/
theorem listCredentials_errors_yield_empty_witness :
    (list_ec2_credentials (CallResult.response 404 none none "not found")).1 = .arr [] ∧
    "Creating new EC2 credentials..." ∈ (mainRun "pw" c4WEnv).lines ∧
    (list_ec2_credentials (CallResult.response 200 none
      (some (.obj [("credentials", .num 5)])) "")).1 = .num 5 := by
  have h := listCredentials_errors_yield_empty "pw" c4WEnv _ rfl (Or.inl (by decide)) (by decide)
  exact ⟨h.1, h.2.1, h.2.2 none [("credentials", .num 5)] "" (.num 5) rfl⟩

theorem printAccessLoop_cons_records (a s : String) (rest : List (String × String)) :
    printAccessLoop (credRecord a s :: rest.map fun r => credRecord r.1 r.2) =
      (("  - Access Key: " ++ a) :: rest.map (fun r => "  - Access Key: " ++ r.1), none) := by
  simpa using printAccessLoop_records ((a, s) :: rest)

/-- Claim C5: at the decision point, with a non-empty list of existing
credential records the operator is prompted exactly once; any answer other
than the explicit affirmative (lower-cased, stripped "y") selects reuse of
the first listed record — its pair is printed and the run exits 0 — while
the affirmative proceeds to creating a new credential; with an empty list the
run proceeds directly to creation without prompting. -/
theorem decisionPoint_prompt_policy (p : String) (ltok : Option String) (ltext : String)
    (env : Env) (records : List (String × String))
    (hauth : authPassesB env.authResp = true)
    (hlist : env.listResp = .response 200 ltok
      (some (.obj [("credentials", .arr (records.map fun r => credRecord r.1 r.2))])) ltext) :
    (records = [] → (mainRun p env).prompts = [] ∧
      "Creating new EC2 credentials..." ∈ (mainRun p env).lines) ∧
    (∀ a s rest, records = (a, s) :: rest →
      (mainRun p env).prompts = [createNewPrompt] ∧
      (pyStrip (pyLower env.reuseAnswer) ≠ "y" →
        (mainRun p env).outcome = .exit 0 ∧
        ("Access Key ID: " ++ a) ∈ (mainRun p env).lines ∧
        ("Secret Access Key: " ++ s) ∈ (mainRun p env).lines) ∧
      (pyStrip (pyLower env.reuseAnswer) = "y" →
        "Creating new EC2 credentials..." ∈ (mainRun p env).lines)) := by
  obtain ⟨t, u, hga, ht, hu⟩ := authPasses_elim _ hauth
  have hv : (list_ec2_credentials env.listResp).1 =
      .arr (records.map fun r => credRecord r.1 r.2) := by
    rw [hlist]; simp [list_ec2_credentials]
  constructor
  · intro hrec
    subst hrec
    have hlistF : (list_ec2_credentials env.listResp).1.pyTruthy = false := by
      rw [hv]; rfl
    have hmb := mainBody_noExisting env t u hga ht hu hlistF
    exact ⟨by rw [mainRun_prompts, hmb]; exact createStep_prompts _ _ _ _ _ _,
           by rw [mainRun_lines, hmb]; exact createStep_mem_creating _ _ _ _ _ _⟩
  · intro a s rest hrec
    subst hrec
    refine ⟨?_, ?_, ?_⟩
    · rw [mainRun_prompts]
      unfold mainBody
      simp only [hga, ht, hu, hv, List.map_cons]
      simp [Json.pyTruthy, Json.pyLen, Json.pyIter, printAccessLoop_cons_records,
        Json.pySub0, credRecord_get_access, credRecord_get_secret, Json.pyStr]
      split <;> first
        | rfl
        | exact createStep_prompts _ _ _ _ _ _
    · intro hy
      constructor
      · rw [mainRun_outcome]
        unfold mainBody
        simp only [hga, ht, hu, hv, List.map_cons]
        simp [Json.pyTruthy, Json.pyLen, Json.pyIter, printAccessLoop_cons_records,
          Json.pySub0, credRecord_get_access, credRecord_get_secret, Json.pyStr, hy]
      · constructor <;>
        · rw [mainRun_lines]
          unfold mainBody
          simp only [hga, ht, hu, hv, List.map_cons]
          simp [Json.pyTruthy, Json.pyLen, Json.pyIter, printAccessLoop_cons_records,
            Json.pySub0, credRecord_get_access, credRecord_get_secret, Json.pyStr, hy]
    · intro hy
      rw [mainRun_lines]
      unfold mainBody
      simp only [hga, ht, hu, hv, List.map_cons]
      simp [Json.pyTruthy, Json.pyLen, Json.pyIter, printAccessLoop_cons_records, hy]
      exact createStep_mem_creating _ _ _ _ _ _

/-- Witness for C5: one existing record, operator answers "n": reuse path. -/
theorem decisionPoint_prompt_policy_witness :
    (mainRun "pw" c5WEnv).prompts = [createNewPrompt] ∧
    (mainRun "pw" c5WEnv).outcome = .exit 0 ∧
    ("Access Key ID: " ++ "AK1") ∈ (mainRun "pw" c5WEnv).lines ∧
    ("Secret Access Key: " ++ "SK1") ∈ (mainRun "pw" c5WEnv).lines := by
  have h := (decisionPoint_prompt_policy "pw" none "" c5WEnv [("AK1", "SK1")]
    (by decide) rfl).2 "AK1" "SK1" [] rfl
  exact ⟨h.1, (h.2.1 (by decide)).1, (h.2.1 (by decide)).2.1, (h.2.1 (by decide)).2.2⟩

/-- Counterexample to claim C3 as stated: on a 201 response whose
`X-Subject-Token` header is present but carries the empty string (and whose
body is Scenario A's), the claim's condition holds, yet `get_keystone_token`
returns the empty token `("", "u1")`, not a non-empty one — the code tests
the header's truthiness, not its presence. -/
theorem authenticate_header_present_counterexample :
    ¬ (authReturnSuccess (get_keystone_token c3CeResp).1 ↔ specAuthPresentCond c3CeResp) := by
  intro h
  have htu1 : tokenUserId bodyU1 = some (.str "u1") := rfl
  have hcond : specAuthPresentCond c3CeResp := by
    refine ⟨rfl, fun hx => Option.noConfusion hx, bodyU1, rfl, fun hx => ?_⟩
    rw [htu1] at hx
    exact Option.noConfusion hx
  exact h.mpr hcond rfl

/-- Claim C3 (amended): `get_keystone_token` returns a non-empty token and a
subject id exactly when the service responds 201 with the `X-Subject-Token`
header present with a non-empty value and a body containing `token.user.id`
(in particular, Scenario A's response yields the pair `("TOK", "u1")`); in
every other case the run treats authentication as failed — it halts with
exit status 1 after the authentication call, issuing no further network
calls. -/
theorem authenticate_success_iff (p : String) (env : Env) :
    (authReturnSuccess (get_keystone_token env.authResp).1 ↔
      specAuthNonEmptyCond env.authResp) ∧
    (¬ specAuthNonEmptyCond env.authResp →
      runExitCode (mainRun p env) = 1 ∧
      (mainRun p env).calls = [SentCall.postAuthTokens]) ∧
    (get_keystone_token authOkResp).1 = .pair (some "TOK") (.str "u1") := by
  have failPair : ∀ t u, (get_keystone_token env.authResp).1 = .pair t u →
      optStrTruthy t = false →
      runExitCode (mainRun p env) = 1 ∧ (mainRun p env).calls = [SentCall.postAuthTokens] := by
    intro t u hga hft
    obtain ⟨ho, hc, _⟩ := mainBody_authFail env t u hga (by simp [hft])
    have ho' : (mainRun p env).outcome = .exit 1 := (mainRun_outcome p env).trans ho
    exact ⟨by simp [runExitCode, ho'], (mainRun_calls p env).trans hc⟩
  have failScalar : (get_keystone_token env.authResp).1 = .scalarNone →
      runExitCode (mainRun p env) = 1 ∧ (mainRun p env).calls = [SentCall.postAuthTokens] := by
    intro hga
    obtain ⟨ho, hc, _⟩ := mainBody_scalarNone env hga
    have ho' : (mainRun p env).outcome = .unhandled unpackTypeErrorMsg :=
      (mainRun_outcome p env).trans ho
    exact ⟨by simp [runExitCode, ho'], (mainRun_calls p env).trans hc⟩
  refine ⟨?_, ?_, rfl⟩
  · rcases henv : env.authResp with e | ⟨st, stok, body, tx⟩
    · simp [get_keystone_token, authReturnSuccess, specAuthNonEmptyCond]
    · by_cases hst : st = 201
      · subst hst
        cases body with
        | none => simp [get_keystone_token, authReturnSuccess, specAuthNonEmptyCond]
        | some b =>
            rcases htu : tokenUserId b with _ | idv
            · simp [get_keystone_token, authReturnSuccess, specAuthNonEmptyCond, htu]
            · cases stok with
              | none => simp [get_keystone_token, authReturnSuccess, specAuthNonEmptyCond, htu]
              | some tk =>
                  simp [get_keystone_token, authReturnSuccess, specAuthNonEmptyCond, htu]
      · simp [get_keystone_token, authReturnSuccess, specAuthNonEmptyCond, hst]
  · rcases henv : env.authResp with e | ⟨st, stok, body, tx⟩
    · intro hn
      exact failPair none .null (by rw [henv]; rfl) rfl
    · by_cases hst : st = 201
      · subst hst
        cases body with
        | none =>
            intro hn
            exact failPair none .null (by rw [henv]; rfl) rfl
        | some b =>
            rcases htu : tokenUserId b with _ | idv
            · intro hn
              exact failPair none .null (by rw [henv]; simp [get_keystone_token, htu]) rfl
            · cases stok with
              | none =>
                  intro hn
                  exact failPair none idv (by rw [henv]; simp [get_keystone_token, htu]) rfl
              | some tk =>
                  intro hn
                  simp [specAuthNonEmptyCond, htu] at hn
                  subst hn
                  exact failPair (some "") idv
                    (by rw [henv]; simp [get_keystone_token, htu]) rfl
      · intro hn
        exact failScalar (by rw [henv]; simp [get_keystone_token, hst])

/-- Witness for the amended C3: a transport error on the authentication call
is not a success case, and the run halts at authentication with exit 1. -/
theorem authenticate_success_iff_witness :
    runExitCode (mainRun "pw" c3WEnv) = 1 ∧
    (mainRun "pw" c3WEnv).calls = [SentCall.postAuthTokens] :=
  (authenticate_success_iff "pw" c3WEnv).2.1 (fun h => h)
